import Mathlib

/-!
# Verification of the atomica equality-proof pipeline

Shallow embedding of the two-layer proof system of the `bomba-atomica/atomica`
repository: the Plonky3-based equality AIR (`diem-prover-plonk/host/src/eq_air.rs`),
the stwo-based equality AIR (`diem-prover-stwo/host/src/eq_air.rs`), and the
dual-verification layer of `diem-prover-plonky3/host/src/verifier/`
(`native_stark.rs`, `snark_wrapper.rs`).

Modelling conventions:
* machine integers are `Nat` with explicit bounds (`u32` values are below `2^32`,
  Mersenne31 field elements are reduced mod `2^31 - 1` where the source reduces);
* Rust `Result` is `Except`; a Rust panic (`expect`, `assert!`, out-of-bounds
  index) is an explicit `panicked` error value;
* the external proving libraries (`p3_uni_stark`, stwo's prover, arkworks
  Marlin) are modelled by their documented contract: a serialized proof is a
  faithful record of the committed data, and library verification checks the
  AIR / circuit constraints against that record.  The repository's own glue
  code (fail-fast checks, trace construction, circuit synthesis, wrapping and
  verification flow) is translated statement by statement;
* each externally observable operation of a prove/verify/wrap call is logged in
  a `Step` list mirroring the source's statement order, so that statements such
  as "fails before any cryptographic work" are expressible.
-/

namespace Atomica

/-- The Mersenne31 prime `2^31 - 1`: the field modulus of `p3_mersenne_31::Mersenne31`
and of stwo's `BaseField` (`m31`). -/
def M31P : Nat := 2 ^ 31 - 1

/-- Rust `Mersenne31::new_checked(v)`: `Some` iff `v` lies in the canonical
range `[0, 2^31 - 1)`; the value is embedded unchanged. -/
def new_checked (v : Nat) : Option Nat :=
  if v < M31P then some v else none

/-- Subtraction in the Mersenne31 field (the AIR expression `local[0] - local[1]`). -/
def m31_sub (x y : Nat) : Nat :=
  (x % M31P + (M31P - y % M31P)) % M31P

/-- `p3_matrix::dense::RowMajorMatrix<F>`: row-major values plus a column count. -/
structure RowMajorMatrix where
  values : List Nat
  width : Nat
deriving DecidableEq, Repr

/-- Height of a row-major matrix (`values.len() / width`). -/
def RowMajorMatrix.height (m : RowMajorMatrix) : Nat := m.values.length / m.width

/-- Entry of a row-major matrix at row `r`, column `c` (0 outside the data). -/
def RowMajorMatrix.entry (m : RowMajorMatrix) (r c : Nat) : Nat :=
  m.values.getD (r * m.width + c) 0

/-- Contract model of a `p3_uni_stark` proof object: the proof commits the
prover to the execution trace, and verification checks the AIR constraints
against the openings of that commitment.  The model records the committed
trace itself. -/
structure LibProof where
  trace : RowMajorMatrix
deriving DecidableEq, Repr

/-- Model of `bincode::serialize` on a `p3_uni_stark` proof: an injective byte
encoding of the committed data (width, length, then the values). -/
def bincode_serialize (p : LibProof) : List Nat :=
  p.trace.width :: p.trace.values.length :: p.trace.values

/-- Model of `bincode::deserialize`: partial inverse of `bincode_serialize`;
fails on byte strings that are not an encoding of a proof. -/
def bincode_deserialize (bytes : List Nat) : Option LibProof :=
  match bytes with
  | w :: n :: rest => if rest.length = n then some ⟨⟨rest, w⟩⟩ else none
  | _ => none

end Atomica

namespace Atomica.Plonk

/-!
## `diem-prover-plonk/host/src/eq_air.rs`

The equality AIR over Mersenne31: width 2, one constraint
`local[0] - local[1] = 0` per row, no public values
(`prove`/`verify` are called with `&vec![]`).
-/

/-- Error kinds of the plonk host (`anyhow` errors and panics). -/
inductive RustError
  /-- A Rust panic (`expect` on `new_checked` in `generate_trace`). -/
  | panicked
  /-- `"Cannot prove equality: a != b"` from `prove_equality`. -/
  | equalityViolation
  /-- `"Proof values are not equal"` from `verify_equality`. -/
  | proofValuesUnequal
  /-- `"Failed to deserialize proof"`. -/
  | deserializeFailed
  /-- `"Verification failed"` from the library verifier. -/
  | verificationFailed
deriving DecidableEq, Repr

/-- The loop body of `generate_trace`: `for _ in 0..num_rows { push a; push b }`. -/
def traceValues : Nat → Nat → Nat → List Nat
  | 0, _, _ => []
  | n + 1, a, b => a :: b :: traceValues n a b

/-- `generate_trace(num_rows, a_val, b_val)`: checked conversion of both values
into Mersenne31 (panic when out of the canonical range), then a `num_rows × 2`
row-major matrix in which every row is `(a, b)`. -/
def generate_trace (num_rows a_val b_val : Nat) : Except RustError RowMajorMatrix :=
  match new_checked a_val, new_checked b_val with
  | some a, some b => .ok ⟨traceValues num_rows a b, 2⟩
  | _, _ => .error .panicked

/-- The AIR constraint check of `EqualityAir::eval` as applied by the library
verifier: `local[0] - local[1] = 0` at every opened row. -/
def air_eval_ok (m : RowMajorMatrix) : Bool :=
  (List.range m.height).all fun r => m31_sub (m.entry r 0) (m.entry r 1) == 0

/-- Contract model of `p3_uni_stark::prove` for `EqualityAir`: the proof
commits to the trace. -/
def p3_prove (trace : RowMajorMatrix) : LibProof := ⟨trace⟩

/-- Contract model of `p3_uni_stark::verify` for `EqualityAir` (which carries
no public values and whose `eval` reads only the current row): accept iff the
committed width is the AIR width 2 and every opened row satisfies the
constraint. -/
def p3_verify (proof : LibProof) : Bool :=
  proof.trace.width == 2 && air_eval_ok proof.trace

/-- Externally observable operations of a plonk prove/verify call, in source
statement order. -/
inductive Step
  /-- the `if a != b` fail-fast check in `prove_equality` -/
  | equalityCheck
  /-- `generate_trace` -/
  | traceGen
  /-- the `p3_uni_stark::prove` call -/
  | starkProve
  /-- `bincode::serialize` of the proof -/
  | serializeProof
  /-- the `if proof.a != proof.b` plaintext check in `verify_equality` -/
  | plaintextEqCheck
  /-- `bincode::deserialize` of the proof bytes -/
  | deserializeProof
  /-- the `p3_uni_stark::verify` call -/
  | starkVerify
deriving DecidableEq, Repr

/-- `EqualityProof { proof_bytes, a, b }`. -/
structure EqualityProof where
  proof_bytes : List Nat
  a : Nat
  b : Nat
deriving DecidableEq, Repr

/-- `prove_equality(a, b)` with its step log: bail with `EqualityViolation`
when `a != b`; otherwise build the 32-row trace, prove, and serialize. -/
def prove_equality_run (a b : Nat) : List Step × Except RustError EqualityProof :=
  if a ≠ b then
    ([.equalityCheck], .error .equalityViolation)
  else
    match generate_trace 32 a b with
    | .error e => ([.equalityCheck, .traceGen], .error e)
    | .ok trace =>
      ([.equalityCheck, .traceGen, .starkProve, .serializeProof],
        .ok ⟨bincode_serialize (p3_prove trace), a, b⟩)

/-- Result of `prove_equality(a, b)`. -/
def prove_equality (a b : Nat) : Except RustError EqualityProof :=
  (prove_equality_run a b).2

/-- `verify_equality(proof)` with its step log: plaintext comparison of the
tagged values, deserialization, then library verification. -/
def verify_equality_run (p : EqualityProof) : List Step × Except RustError Bool :=
  if p.a ≠ p.b then
    ([.plaintextEqCheck], .error .proofValuesUnequal)
  else
    match bincode_deserialize p.proof_bytes with
    | none => ([.plaintextEqCheck, .deserializeProof], .error .deserializeFailed)
    | some sp =>
      if p3_verify sp then
        ([.plaintextEqCheck, .deserializeProof, .starkVerify], .ok true)
      else
        ([.plaintextEqCheck, .deserializeProof, .starkVerify], .error .verificationFailed)

/-- Result of `verify_equality(proof)`. -/
def verify_equality (p : EqualityProof) : Except RustError Bool :=
  (verify_equality_run p).2

end Atomica.Plonk

namespace Atomica.Stwo

/-!
## `diem-prover-stwo/host/src/eq_air.rs`

The equality constraint over stwo's `BaseField` (Mersenne31): two trace
columns `a`, `b`, one constraint `a - b = 0`.  Trace construction uses
`BaseField::from_u32_unchecked` — no range check — and fills SIMD chunks of
`2^LOG_N_LANES` lanes over columns initialised to zero.
-/

/-- `stwo::prover::backend::simd::m31::LOG_N_LANES` (16 Mersenne31 lanes). -/
def LOG_N_LANES : Nat := 4

/-- Error kinds of the stwo host (`anyhow` errors and panics). -/
inductive RustError
  /-- the `assert!(log_size >= LOG_N_LANES)` panic in `generate_trace` -/
  | assertFailed
  /-- `"Cannot prove equality: a != b"` from `prove_equality` -/
  | equalityViolation
  /-- a failure of the stwo library prover/verifier -/
  | verificationFailed
deriving DecidableEq, Repr

/-- `BaseField::from_u32_unchecked(v)`: the raw `u32` is stored with no range
check and no reduction. -/
def from_u32_unchecked (v : Nat) : Nat := v

/-- One trace column of `generate_trace`: `Col::zeros(size)` whose SIMD chunks
`0 .. size >> LOG_N_LANES` are overwritten by the broadcast value `v`
(entries beyond the last full chunk keep their zero initialisation). -/
def column_fill (size v : Nat) : List Nat :=
  (List.range size).map fun i =>
    if i < (size >>> LOG_N_LANES) * 2 ^ LOG_N_LANES then v else 0

/-- `generate_trace(log_size, a_val, b_val)`: asserts
`log_size >= LOG_N_LANES`, then builds two constant columns of `2^log_size`
entries from the unchecked conversions of `a_val` and `b_val`. -/
def generate_trace (log_size a_val b_val : Nat) :
    Except RustError (List Nat × List Nat) :=
  if log_size < LOG_N_LANES then .error .assertFailed
  else
    .ok (column_fill (2 ^ log_size) (from_u32_unchecked a_val),
         column_fill (2 ^ log_size) (from_u32_unchecked b_val))

/-- Contract model of a stwo `StarkProof`: the commitments bind the prover to
the two trace columns; the model records them. -/
structure StarkProof where
  col_a : List Nat
  col_b : List Nat
deriving DecidableEq, Repr

/-- `EqualityProof { config, stark_proof, a, b }`; `config` models the
serialized `PcsConfig` (the default in every source path). -/
structure EqualityProof where
  config : Nat
  stark_proof : StarkProof
  a : Nat
  b : Nat
deriving DecidableEq, Repr

/-- Externally observable operations of a stwo prove/verify call, in source
statement order. -/
inductive Step
  /-- the `if a != b` fail-fast check in `prove_equality` -/
  | equalityCheck
  /-- `SimdBackend::precompute_twiddles` -/
  | precomputeTwiddles
  /-- committing the (empty) preprocessed trace -/
  | commitPreprocessed
  /-- `generate_trace` -/
  | traceGen
  /-- committing the trace columns -/
  | commitTrace
  /-- the `stwo::prover::prove` call -/
  | starkProve
  /-- replaying the commitments in `verify_equality` -/
  | commitReplay
  /-- the `stwo::core::verifier::verify` call -/
  | starkVerify
deriving DecidableEq, Repr

/-- `prove_equality(a, b)` with its step log: bail with `EqualityViolation`
when `a != b`; otherwise precompute twiddles, commit the preprocessed and main
traces (`LOG_N_ROWS = 5`), and prove. -/
def prove_equality_run (a b : Nat) : List Step × Except RustError EqualityProof :=
  if a ≠ b then
    ([.equalityCheck], .error .equalityViolation)
  else
    match generate_trace 5 a b with
    | .error e =>
      ([.equalityCheck, .precomputeTwiddles, .commitPreprocessed, .traceGen], .error e)
    | .ok (col_a, col_b) =>
      ([.equalityCheck, .precomputeTwiddles, .commitPreprocessed, .traceGen,
        .commitTrace, .starkProve],
        .ok ⟨0, ⟨col_a, col_b⟩, a, b⟩)

/-- Result of `prove_equality(a, b)`. -/
def prove_equality (a b : Nat) : Except RustError EqualityProof :=
  (prove_equality_run a b).2

/-- The constraint check applied by the modelled stwo verifier for
`EqualityEval` with `log_n_rows = 5`: both committed columns have `2^5`
entries and `a - b = 0` holds at every row. -/
def stwo_constraints_ok (sp : StarkProof) : Bool :=
  sp.col_a.length == 2 ^ 5 && sp.col_b.length == 2 ^ 5 &&
    (List.zip sp.col_a sp.col_b).all fun rc => m31_sub rc.1 rc.2 == 0

/-- `verify_equality(proof)` with its step log: replay the two commitments and
run the library verifier (there is no plaintext comparison of the tagged
values on this path). -/
def verify_equality_run (p : EqualityProof) : List Step × Except RustError Bool :=
  if stwo_constraints_ok p.stark_proof then
    ([.commitReplay, .starkVerify], .ok true)
  else
    ([.commitReplay, .starkVerify], .error .verificationFailed)

/-- Result of `verify_equality(proof)`. -/
def verify_equality (p : EqualityProof) : Except RustError Bool :=
  (verify_equality_run p).2

end Atomica.Stwo

namespace Atomica.P3

/-!
## `diem-prover-plonky3/host/src/verifier/native_stark.rs`

The native STARK verifier over the plonky3 equality AIR.  In this crate the
AIR carries the expected claim values (`EqualityAir { num_rows, expected_a,
expected_b }`); the crate's `eq_air.rs` itself is not part of the source
tree under verification, so its constraint is modelled from the spec (see
`eq_air_expected_ok`).
-/

/-- Rust struct `NativeStarkProof { proof_bytes, a, b, num_rows }`. -/
structure NativeStarkProof where
  proof_bytes : List Nat
  a : Nat
  b : Nat
  num_rows : Nat
deriving DecidableEq, Repr

/-- Modelled from the spec: the plonky3 host's `eq_air.rs` (the `EqualityAir`
with `expected_a`/`expected_b` fields used by `NativeStarkVerifier::verify`)
is not under the source tree.  Per the spec, the AIR enforces the per-row
equality constraint `column0 - column1 = 0`, and verifying a proof against a
public-input set belonging to a different claim must fail with
`ConstraintViolation`; the constraint is therefore modelled as binding each
opened row to the expected claim values in addition to the equality
constraint. -/
def eq_air_expected_ok (expected_a expected_b : Nat) (m : RowMajorMatrix) : Bool :=
  (List.range m.height).all fun r =>
    m31_sub (m.entry r 0) (m.entry r 1) == 0 &&
      m.entry r 0 == expected_a && m.entry r 1 == expected_b

/-- Contract model of `p3_uni_stark::verify` for the plonky3 `EqualityAir`
with expected values: accept iff the committed width is 2 and every opened
row satisfies the (spec-modelled) constraints. -/
def p3_verify_expected (expected_a expected_b : Nat) (proof : LibProof) : Bool :=
  proof.trace.width == 2 && eq_air_expected_ok expected_a expected_b proof.trace

/-- Error kinds of the dual-verification layer (`anyhow` errors and panics). -/
inductive VError
  /-- `"Proof values are not equal"` from `NativeStarkVerifier::verify` -/
  | proofValuesUnequal
  /-- `"Proof trace size mismatch"` -/
  | traceSizeMismatch
  /-- the `expect("Value must fit in field")` panic on `new_checked` -/
  | panicked
  /-- `"Failed to deserialize STARK proof"` -/
  | deserializeFailed
  /-- `"STARK verification failed"` (the library's constraint violation) -/
  | constraintViolation
deriving DecidableEq, Repr

/-- Externally observable operations of the dual-verification layer, in
source statement order, shared across `NativeStarkVerifier::verify`,
`SnarkWrapper::wrap` and `SnarkVerifier::verify`. -/
inductive Step
  /-- the `if proof.a != proof.b` plaintext check in the native verifier -/
  | plaintextEqCheck
  /-- the `proof.num_rows != self.num_rows` check -/
  | heightCheck
  /-- construction of the AIR with the expected claim values -/
  | airConstruct
  /-- `bincode::deserialize` of the inner proof bytes -/
  | deserializeInner
  /-- the `p3_uni_stark::verify` call on the inner proof -/
  | starkVerify
  /-- `SnarkWrapper::hash_stark_proof` -/
  | hashProof
  /-- synthesis of `StarkVerifierCircuit` with concrete witnesses -/
  | synthCircuit
  /-- drawing system randomness via `ark_std::rand::thread_rng()` -/
  | sampleRng
  /-- the `MarlinInst::prove` call -/
  | snarkProve
  /-- serialization of the outer Marlin proof -/
  | serializeOuter
  /-- deserialization of the outer Marlin proof in `SnarkVerifier::verify` -/
  | deserializeOuter
  /-- parsing the decimal public-input strings -/
  | parsePublicInputs
  /-- the `MarlinInst::verify` pairing check -/
  | pairingVerify
deriving DecidableEq, Repr

/-- Rust `NativeStarkVerifier::verify` (the verifier is `new(self_num_rows)`)
with its step log: plaintext comparison of the tagged values, trace-size
check, AIR construction from the tagged values (checked conversion panics
out of range), deserialization, then library verification. -/
def native_verify_run (self_num_rows : Nat) (p : NativeStarkProof) :
    List Step × Except VError Unit :=
  if p.a ≠ p.b then
    ([.plaintextEqCheck], .error .proofValuesUnequal)
  else if p.num_rows ≠ self_num_rows then
    ([.plaintextEqCheck, .heightCheck], .error .traceSizeMismatch)
  else
    match new_checked p.a, new_checked p.b with
    | some ea, some eb =>
      match bincode_deserialize p.proof_bytes with
      | none =>
        ([.plaintextEqCheck, .heightCheck, .airConstruct, .deserializeInner],
          .error .deserializeFailed)
      | some sp =>
        if p3_verify_expected ea eb sp then
          ([.plaintextEqCheck, .heightCheck, .airConstruct, .deserializeInner,
            .starkVerify], .ok ())
        else
          ([.plaintextEqCheck, .heightCheck, .airConstruct, .deserializeInner,
            .starkVerify], .error .constraintViolation)
    | _, _ =>
      ([.plaintextEqCheck, .heightCheck, .airConstruct], .error .panicked)

/-- Result of `NativeStarkVerifier::verify`. -/
def native_verify (self_num_rows : Nat) (p : NativeStarkProof) : Except VError Unit :=
  (native_verify_run self_num_rows p).2

/-- Modelled from the spec: the plonky3 host's `prove_equality` (its
`eq_air.rs` is not under the source tree).  Per the spec it builds a 32-row,
2-column trace replicating `(a, b)` on every row, proves it, and tags the
serialized proof with the claim and the trace height; the trace layout is
shared with the plonk host's `generate_trace`. -/
def prove_equality_model (a : Nat) : NativeStarkProof :=
  ⟨bincode_serialize ⟨⟨Plonk.traceValues 32 a a, 2⟩⟩, a, a, 32⟩

end Atomica.P3

namespace Atomica.P3

/-!
## `diem-prover-plonky3/host/src/verifier/snark_wrapper.rs`

The Marlin-based wrapping layer.  `StarkVerifierCircuit::generate_constraints`
is translated allocation by allocation into an explicit R1CS record; the
arkworks Marlin engine is modelled by its contract (a proof binds the indexed
circuit key, the public-input assignment, and whether the synthesized
constraints were satisfied; zk blinding randomness affects only the proof
bytes).
-/

/-- A circuit variable: the `i`-th allocated witness or public input. -/
inductive Var
  | w (i : Nat)
  | inp (i : Nat)
deriving DecidableEq, Repr

/-- An enforced relation: `enforce_equal` between two variables, or the
`is_zero()?.enforce_equal(&Boolean::FALSE)` nonzero check. -/
inductive Constraint
  | eqC (x y : Var)
  | nonzeroC (x : Var)
deriving DecidableEq, Repr

/-- The synthesized constraint system: witness and public-input assignments
in allocation order, plus the enforced constraints in order. -/
structure R1CS where
  witnesses : List Nat
  inputs : List Nat
  constraints : List Constraint
deriving DecidableEq, Repr

/-- Value of a variable under the assignments of a constraint system. -/
def varVal (r : R1CS) : Var → Nat
  | .w i => r.witnesses.getD i 0
  | .inp i => r.inputs.getD i 0

/-- Whether one enforced constraint holds under the assignments. -/
def constraintHolds (r : R1CS) : Constraint → Bool
  | .eqC x y => varVal r x == varVal r y
  | .nonzeroC x => varVal r x != 0

/-- Whether every enforced constraint holds under the assignments. -/
def satisfies (r : R1CS) : Bool := r.constraints.all (constraintHolds r)

/-- Synthesis errors of `generate_constraints` (`SynthesisError`, plus a
panic marker for the `hash[0]` index). -/
inductive SynthErr
  /-- `SynthesisError::AssignmentMissing` -/
  | assignmentMissing
  /-- a Rust panic (indexing `hash[0]` on an empty hash) -/
  | panicked
deriving DecidableEq, Repr

/-- Rust struct `StarkVerifierCircuit { proof_hash, verified_a, verified_b }`
(all fields `Option`al; `empty()` is used for key generation). -/
structure StarkVerifierCircuit where
  proof_hash : Option (List Nat)
  verified_a : Option Nat
  verified_b : Option Nat
deriving DecidableEq, Repr

/-- Rust `StarkVerifierCircuit::generate_constraints`, allocation by
allocation: witness `a` (from `verified_a`), witness `b` (from `verified_b`),
public input `a` (from `verified_a` again); then `enforce_equal(a_witness,
a_public)` and `enforce_equal(a_witness, b_witness)`; finally, when a proof
hash is present, a witness holding the field element of `hash[0]` and the
constraint that it is nonzero.  A missing assignment raises
`AssignmentMissing`. -/
def generate_constraints (c : StarkVerifierCircuit) : Except SynthErr R1CS :=
  match c.verified_a with
  | none => .error .assignmentMissing
  | some va =>
    match c.verified_b with
    | none => .error .assignmentMissing
    | some vb =>
      match c.verified_a with
      | none => .error .assignmentMissing
      | some vpub =>
        let base : R1CS :=
          { witnesses := [va, vb], inputs := [vpub],
            constraints := [.eqC (.w 0) (.inp 0), .eqC (.w 0) (.w 1)] }
        match c.proof_hash with
        | none => .ok base
        | some hash =>
          match hash with
          | [] => .error .panicked
          | h0 :: _ =>
            .ok { witnesses := base.witnesses ++ [h0],
                  inputs := base.inputs,
                  constraints := base.constraints ++ [.nonzeroC (.w 2)] }

/-- Marlin proving key (the circuit-indexed key identity). -/
structure IndexProverKey where
  keyId : Nat
deriving DecidableEq, Repr

/-- Marlin verifying key (the circuit-indexed key identity). -/
structure IndexVerifierKey where
  keyId : Nat
deriving DecidableEq, Repr

/-- Contract model of a serialized Marlin proof: it binds the indexed key,
the public-input assignment it was produced with, whether the synthesized
constraints were satisfied, and the zk blinding drawn from the prover's
randomness (which affects the bytes but not validity). -/
structure MarlinProof where
  keyId : Nat
  publicInputs : List Nat
  satisfiedC : Bool
  blinding : Nat
deriving DecidableEq, Repr

/-- Contract model of `MarlinInst::prove(pk, circuit, rng)`: synthesize the
circuit (propagating synthesis errors) and emit a proof bound to the key,
the public-input assignment and the satisfaction of the constraints, blinded
by the supplied randomness. -/
def marlin_prove (pk : IndexProverKey) (c : StarkVerifierCircuit) (rngSeed : Nat) :
    Except SynthErr MarlinProof :=
  match generate_constraints c with
  | .error e => .error e
  | .ok r => .ok ⟨pk.keyId, r.inputs, satisfies r, rngSeed⟩

/-- Contract model of `MarlinInst::verify(vk, pubs, proof, rng)`: the pairing
check accepts iff the proof was produced under the matching indexed key for a
satisfied circuit whose public-input assignment equals the supplied public
inputs; the verifier-side randomness does not change the outcome. -/
def marlin_verify (vk : IndexVerifierKey) (pubs : List Nat) (p : MarlinProof)
    (_rngSeed : Nat) : Bool :=
  p.keyId == vk.keyId && p.satisfiedC && pubs == p.publicInputs

/-- Little-endian byte encoding of a `u32` (`to_le_bytes`). -/
def u32_le_bytes (v : Nat) : List Nat :=
  [v % 256, v / 256 % 256, v / 2 ^ 16 % 256, v / 2 ^ 24 % 256]

/-- Little-endian byte encoding of a `usize` (`to_le_bytes`, 8 bytes). -/
def usize_le_bytes (v : Nat) : List Nat :=
  (List.range 8).map fun i => v / 256 ^ i % 256

/-- Contract model of SHA-256: a deterministic 32-byte digest of the message
(collision resistance is not modelled). -/
def sha256_bytes (msg : List Nat) : List Nat :=
  (List.range 32).map fun i =>
    (msg.foldl (fun acc byte => (acc * 257 + byte + 1) % 65521) i) % 256

/-- Rust `SnarkWrapper::hash_stark_proof`: SHA-256 over
`proof_bytes ‖ a.to_le_bytes() ‖ b.to_le_bytes() ‖ num_rows.to_le_bytes()`. -/
def hash_stark_proof (p : NativeStarkProof) : List Nat :=
  sha256_bytes (p.proof_bytes ++ u32_le_bytes p.a ++ u32_le_bytes p.b ++
    usize_le_bytes p.num_rows)

/-- Decimal-digit model of a Rust numeric string: `n.to_string()` as the list
of decimal digits, most significant first. -/
def nat_to_decimal (n : Nat) : List Nat :=
  if n = 0 then [0] else (Nat.digits 10 n).reverse

/-- Decimal-digit model of `s.parse::<u32>()`: succeeds on a nonempty string
of decimal digits whose value fits a `u32`. -/
def parse_u32 (s : List Nat) : Option Nat :=
  if s = [] then none
  else if s.all (· < 10) then
    let v := Nat.ofDigits 10 s.reverse
    if v < 2 ^ 32 then some v else none
  else none

/-- Rust struct `WrappedProof { inner_stark_proof, outer_snark_proof,
public_inputs }`; the outer proof stands for its serialized bytes, and each
public-input string is modelled by its decimal digits. -/
structure WrappedProof where
  inner_stark_proof : NativeStarkProof
  outer_snark_proof : MarlinProof
  public_inputs : List (List Nat)
deriving DecidableEq, Repr

/-- Error kinds of `SnarkWrapper::wrap`. -/
inductive WrapError
  /-- the propagated Layer-1 failure (`native_verifier.verify(inner_proof)?`) -/
  | innerProofInvalid (e : VError)
  /-- `"Marlin proving failed"` -/
  | provingFailed (e : SynthErr)
deriving DecidableEq, Repr

/-- Rust `SnarkWrapper::wrap(inner_proof)` with its step log: run the native
Layer-1 verifier (built with the inner proof's trace height) and propagate
its failure; then hash the inner proof, synthesize the circuit with concrete
witnesses, draw proving randomness, prove with Marlin, and assemble the
wrapped proof with the claim value as its only public-input string. -/
def wrap_run (pk : IndexProverKey) (rngSeed : Nat) (inner : NativeStarkProof) :
    List Step × Except WrapError WrappedProof :=
  match native_verify_run inner.num_rows inner with
  | (l1steps, .error e) => (l1steps, .error (.innerProofInvalid e))
  | (l1steps, .ok _) =>
    let proof_hash := hash_stark_proof inner
    let circuit : StarkVerifierCircuit :=
      ⟨some proof_hash, some inner.a, some inner.b⟩
    match marlin_prove pk circuit rngSeed with
    | .error e =>
      (l1steps ++ [.hashProof, .synthCircuit, .sampleRng, .snarkProve],
        .error (.provingFailed e))
    | .ok mp =>
      (l1steps ++ [.hashProof, .synthCircuit, .sampleRng, .snarkProve, .serializeOuter],
        .ok ⟨inner, mp, [nat_to_decimal inner.a]⟩)

/-- Result of `SnarkWrapper::wrap(inner_proof)`. -/
def wrap (pk : IndexProverKey) (rngSeed : Nat) (inner : NativeStarkProof) :
    Except WrapError WrappedProof :=
  (wrap_run pk rngSeed inner).2

/-- Error kinds of `SnarkVerifier::verify`. -/
inductive SVError
  /-- `"Failed to deserialize Marlin proof"` -/
  | deserializeFailed
  /-- `"Failed to parse public input"` -/
  | parseFailed
  /-- `"Marlin verification failed"` -/
  | pairingCheckFailed
deriving DecidableEq, Repr

/-- Rust `SnarkVerifier::verify(proof)` with its step log: deserialize the
outer proof bytes, parse every public-input string as a `u32`, draw the
verifier-side randomness, and run the Marlin pairing check.  Only the outer
proof bytes, the public inputs and the verifying key are read. -/
def snark_verify_run (vk : IndexVerifierKey) (rngSeed : Nat) (p : WrappedProof) :
    List Step × Except SVError Unit :=
  match p.public_inputs.mapM parse_u32 with
  | none => ([.deserializeOuter, .parsePublicInputs], .error .parseFailed)
  | some pubs =>
    if marlin_verify vk pubs p.outer_snark_proof rngSeed then
      ([.deserializeOuter, .parsePublicInputs, .sampleRng, .pairingVerify], .ok ())
    else
      ([.deserializeOuter, .parsePublicInputs, .sampleRng, .pairingVerify],
        .error .pairingCheckFailed)

/-- Result of `SnarkVerifier::verify(proof)`. -/
def snark_verify (vk : IndexVerifierKey) (rngSeed : Nat) (p : WrappedProof) :
    Except SVError Unit :=
  (snark_verify_run vk rngSeed p).2

end Atomica.P3

/-! ## Supporting lemmas -/

namespace Atomica

theorem m31_sub_self (x : Nat) : m31_sub x x = 0 := by
  unfold m31_sub
  have h : x % M31P < M31P := Nat.mod_lt _ (by decide)
  have : x % M31P + (M31P - x % M31P) = M31P := by omega
  rw [this]
  simp [M31P]

theorem m31_sub_eq_zero_iff (x y : Nat) (hx : x < M31P) (hy : y < M31P) :
    m31_sub x y = 0 ↔ x = y := by
  unfold m31_sub
  rw [Nat.mod_eq_of_lt hx, Nat.mod_eq_of_lt hy]
  constructor
  · intro h
    rcases Nat.lt_or_ge (x + (M31P - y)) M31P with hlt | hge
    · rw [Nat.mod_eq_of_lt hlt] at h
      omega
    · have h2 : x + (M31P - y) < 2 * M31P := by omega
      have : x + (M31P - y) - M31P < M31P := by omega
      have hmod : (x + (M31P - y)) % M31P = x + (M31P - y) - M31P := by
        rw [Nat.mod_eq_sub_mod hge, Nat.mod_eq_of_lt this]
      rw [hmod] at h
      omega
  · intro h
    subst h
    have : x + (M31P - x) = M31P := by omega
    rw [this]
    simp [M31P]

theorem bincode_roundtrip (p : LibProof) :
    bincode_deserialize (bincode_serialize p) = some p := by
  simp [bincode_serialize, bincode_deserialize]

end Atomica

namespace Atomica.Plonk

theorem traceValues_length (n a b : Nat) : (traceValues n a b).length = 2 * n := by
  induction n with
  | zero => rfl
  | succ k ih => simp [traceValues, ih]; omega

theorem traceValues_getD_even (n a b r : Nat) (h : r < n) :
    (traceValues n a b).getD (2 * r) 0 = a := by
  induction n generalizing r with
  | zero => omega
  | succ k ih =>
    cases r with
    | zero => rfl
    | succ j =>
      have : 2 * (j + 1) = (2 * j) + 1 + 1 := by omega
      rw [this]
      simpa [traceValues] using ih j (by omega)

theorem traceValues_getD_odd (n a b r : Nat) (h : r < n) :
    (traceValues n a b).getD (2 * r + 1) 0 = b := by
  induction n generalizing r with
  | zero => omega
  | succ k ih =>
    cases r with
    | zero => rfl
    | succ j =>
      have : 2 * (j + 1) + 1 = (2 * j + 1) + 1 + 1 := by omega
      rw [this]
      simpa [traceValues] using ih j (by omega)

theorem p3_verify_trace (n a : Nat) :
    p3_verify (p3_prove ⟨traceValues n a a, 2⟩) = true := by
  unfold p3_verify p3_prove air_eval_ok
  simp only [Bool.and_eq_true, beq_iff_eq, List.all_eq_true, List.mem_range]
  refine ⟨trivial, fun r hr => ?_⟩
  have hh : (RowMajorMatrix.mk (traceValues n a a) 2).height = n := by
    simp [RowMajorMatrix.height, traceValues_length]
  rw [hh] at hr
  have h0 : (RowMajorMatrix.mk (traceValues n a a) 2).entry r 0 = a := by
    simpa [RowMajorMatrix.entry, Nat.mul_comm] using traceValues_getD_even n a a r hr
  have h1 : (RowMajorMatrix.mk (traceValues n a a) 2).entry r 1 = a := by
    simpa [RowMajorMatrix.entry, Nat.mul_comm] using traceValues_getD_odd n a a r hr
  rw [h0, h1, m31_sub_self]

end Atomica.Plonk

namespace Atomica.Stwo

theorem column_fill_length (size v : Nat) : (column_fill size v).length = size := by
  simp [column_fill]

theorem column_fill_all (log_size v : Nat) (h : LOG_N_LANES ≤ log_size) :
    ∀ x ∈ column_fill (2 ^ log_size) v, x = v := by
  intro x hx
  unfold column_fill at hx
  rcases List.mem_map.mp hx with ⟨i, hi, hmap⟩
  have hfull : (2 ^ log_size >>> LOG_N_LANES) * 2 ^ LOG_N_LANES = 2 ^ log_size := by
    rw [Nat.shiftRight_eq_div_pow]
    exact Nat.div_mul_cancel (pow_dvd_pow 2 h)
  rw [hfull] at hmap
  rw [if_pos (List.mem_range.mp hi)] at hmap
  omega

theorem stwo_constraints_ok_fill (a : Nat) :
    stwo_constraints_ok ⟨column_fill (2 ^ 5) a, column_fill (2 ^ 5) a⟩ = true := by
  unfold stwo_constraints_ok
  simp only [Bool.and_eq_true, beq_iff_eq, List.all_eq_true]
  refine ⟨⟨by simp [column_fill_length], by simp [column_fill_length]⟩, fun rc hrc => ?_⟩
  rcases List.of_mem_zip hrc with ⟨h1, h2⟩
  have e1 := column_fill_all 5 a (by decide) rc.1 h1
  have e2 := column_fill_all 5 a (by decide) rc.2 h2
  rw [e1, e2, m31_sub_self]

end Atomica.Stwo

namespace Atomica.P3

theorem snark_verify_steps_sub (vk : IndexVerifierKey) (seed : Nat)
    (p : WrappedProof) :
    ∀ s ∈ (snark_verify_run vk seed p).1,
      s = Step.deserializeOuter ∨ s = Step.parsePublicInputs ∨
        s = Step.sampleRng ∨ s = Step.pairingVerify := by
  intro s hs
  unfold snark_verify_run at hs
  split at hs
  · simp at hs; tauto
  · split at hs <;> · simp at hs; tauto

theorem native_verify_steps_sub (n : Nat) (p : NativeStarkProof) :
    ∀ s ∈ (native_verify_run n p).1,
      s = Step.plaintextEqCheck ∨ s = Step.heightCheck ∨ s = Step.airConstruct ∨
        s = Step.deserializeInner ∨ s = Step.starkVerify := by
  intro s hs
  unfold native_verify_run at hs
  split at hs
  · simp at hs; tauto
  · split at hs
    · simp at hs; tauto
    · split at hs
      · split at hs
        · simp at hs; tauto
        · split at hs <;> · simp at hs; tauto
      · simp at hs; tauto

theorem parse_u32_to_decimal (n : Nat) (h : n < 2 ^ 32) :
    parse_u32 (nat_to_decimal n) = some n := by
  rcases Nat.eq_zero_or_pos n with h0 | h0
  · subst h0; rfl
  · have hn : n ≠ 0 := by omega
    have hne : (Nat.digits 10 n).reverse ≠ [] := by
      simp [Nat.digits_ne_nil_iff_ne_zero, hn]
    have hdig : ∀ d ∈ (Nat.digits 10 n).reverse, d < 10 := fun d hd =>
      Nat.digits_lt_base (by omega) (List.mem_reverse.mp hd)
    unfold nat_to_decimal parse_u32
    rw [if_neg hn, if_neg hne,
      if_pos (List.all_eq_true.mpr fun d hd => decide_eq_true (hdig d hd))]
    simp only [List.reverse_reverse, Nat.ofDigits_digits]
    rw [if_pos h]

end Atomica.P3

namespace Atomica

theorem new_checked_some {v c : Nat} (h : new_checked v = some c) :
    c = v ∧ v < M31P := by
  unfold new_checked at h
  split at h
  · exact ⟨(Option.some.inj h).symm, by assumption⟩
  · exact absurd h (by simp)

end Atomica

/-! ## Claims -/

namespace Atomica

/-- **C2.** For every `u32` pair `(a, b)` with `a ≠ b`, `prove_equality(a, b)`
in both the plonk and stwo hosts returns the `EqualityViolation` error
immediately: the run log holds only the fail-fast equality check — no trace
generation, commitment, or proof computation is performed — and no proof
object is returned. -/
theorem c2_unequal_fail_fast (a b : Nat) (h : a ≠ b) :
    Plonk.prove_equality_run a b =
      ([Plonk.Step.equalityCheck], .error Plonk.RustError.equalityViolation) ∧
    Stwo.prove_equality_run a b =
      ([Stwo.Step.equalityCheck], .error Stwo.RustError.equalityViolation) := by
  constructor
  · unfold Plonk.prove_equality_run
    rw [if_pos h]
  · unfold Stwo.prove_equality_run
    rw [if_pos h]

/-- Witness for C2 at the spec's concrete scenario `(50, 51)`. -/
theorem c2_witness :
    (50 : Nat) ≠ 51 ∧
    (Plonk.prove_equality_run 50 51 =
        ([Plonk.Step.equalityCheck], .error Plonk.RustError.equalityViolation) ∧
      Stwo.prove_equality_run 50 51 =
        ([Stwo.Step.equalityCheck], .error Stwo.RustError.equalityViolation)) :=
  ⟨by decide, c2_unequal_fail_fast 50 51 (by decide)⟩

/-- **C5.** Synthesizing the wrapping circuit with full witness assignments
(a proof hash, `a`, `b`) enforces exactly three constraints, in order: the
private witness `a` (witness 0) equals the public input `a` (input 0); the
private witness `a` equals the private witness `b` (witness 1); and the
proof-hash witness (witness 2, holding the field element of the hash's first
byte) is nonzero. -/
theorem c5_circuit_constraints (hash : List Nat) (a b : Nat) (hne : hash ≠ []) :
    P3.generate_constraints ⟨some hash, some a, some b⟩ =
      .ok { witnesses := [a, b, hash.headD 0],
            inputs := [a],
            constraints := [.eqC (.w 0) (.inp 0), .eqC (.w 0) (.w 1),
              .nonzeroC (.w 2)] } := by
  cases hash with
  | nil => exact absurd rfl hne
  | cons h0 t => rfl

/-- Witness for C5 at hash `[7]`, claim `(42, 42)`. -/
theorem c5_witness :
    ([7] : List Nat) ≠ [] ∧
    P3.generate_constraints ⟨some [7], some 42, some 42⟩ =
      .ok { witnesses := [42, 42, 7],
            inputs := [42],
            constraints := [.eqC (.w 0) (.inp 0), .eqC (.w 0) (.w 1),
              .nonzeroC (.w 2)] } :=
  ⟨by decide, c5_circuit_constraints [7] 42 42 (by decide)⟩

/-- **C10.** Every proof produced by `prove_equality` is built over a trace of
exactly 32 rows (`NUM_ROWS = 32` in the plonk host, `LOG_N_ROWS = 5` in the
stwo host) and 2 columns in which every row holds the pair `(a, b)`.  The
statement quantifies over all inputs of the public proving interface `(a, b)`
with the height a fixed constant, so the height is not controllable through
that interface. -/
theorem c10_trace_shape (a b : Nat) :
    (∀ p, Plonk.prove_equality a b = .ok p →
      ∃ sp, bincode_deserialize p.proof_bytes = some sp ∧
        sp.trace.height = 32 ∧ sp.trace.width = 2 ∧
        ∀ r, r < 32 → sp.trace.entry r 0 = a ∧ sp.trace.entry r 1 = b) ∧
    (∀ q, Stwo.prove_equality a b = .ok q →
      q.stark_proof.col_a.length = 32 ∧ q.stark_proof.col_b.length = 32 ∧
        (∀ x ∈ q.stark_proof.col_a, x = a) ∧
        ∀ x ∈ q.stark_proof.col_b, x = b) := by
  constructor
  · intro p hp
    unfold Plonk.prove_equality Plonk.prove_equality_run at hp
    split at hp
    · simp at hp
    · rename_i hab
      rcases hg : Plonk.generate_trace 32 a b with e | tr
      all_goals rw [hg] at hp
      · simp at hp
      · simp only [Except.ok.injEq] at hp
        subst hp
        unfold Plonk.generate_trace at hg
        rcases hca : new_checked a with _ | ca
        all_goals rw [hca] at hg
        · simp at hg
        · rcases hcb : new_checked b with _ | cb
          all_goals rw [hcb] at hg
          · simp at hg
          · simp only [Except.ok.injEq] at hg
            obtain ⟨hcav, _⟩ := new_checked_some hca
            obtain ⟨hcbv, _⟩ := new_checked_some hcb
            rw [hcav, hcbv] at hg
            subst hg
            refine ⟨⟨⟨Plonk.traceValues 32 a b, 2⟩⟩, bincode_roundtrip _, ?_, rfl, ?_⟩
            · simp [RowMajorMatrix.height, Plonk.traceValues_length]
            · intro r hr
              constructor
              · simpa [RowMajorMatrix.entry, Nat.mul_comm] using
                  Plonk.traceValues_getD_even 32 a b r hr
              · simpa [RowMajorMatrix.entry, Nat.mul_comm] using
                  Plonk.traceValues_getD_odd 32 a b r hr
  · intro q hq
    unfold Stwo.prove_equality Stwo.prove_equality_run at hq
    split at hq
    · simp at hq
    · rcases hg : Stwo.generate_trace 5 a b with e | cols
      all_goals rw [hg] at hq
      · simp at hq
      · simp only [Except.ok.injEq] at hq
        subst hq
        unfold Stwo.generate_trace at hg
        rw [if_neg (by simp [Stwo.LOG_N_LANES])] at hg
        simp only [Except.ok.injEq] at hg
        subst hg
        refine ⟨by simp [Stwo.column_fill_length], by simp [Stwo.column_fill_length],
          ?_, ?_⟩
        · exact Stwo.column_fill_all 5 a (by decide)
        · exact Stwo.column_fill_all 5 b (by decide)

/-- Witness for C10 at the claim `(7, 7)`. -/
theorem c10_witness :
    (Plonk.prove_equality 7 7 =
        .ok ⟨bincode_serialize ⟨⟨Plonk.traceValues 32 7 7, 2⟩⟩, 7, 7⟩ ∧
      ∃ sp, bincode_deserialize
          (Plonk.EqualityProof.mk
            (bincode_serialize ⟨⟨Plonk.traceValues 32 7 7, 2⟩⟩) 7 7).proof_bytes =
          some sp ∧
        sp.trace.height = 32 ∧ sp.trace.width = 2 ∧
        ∀ r, r < 32 → sp.trace.entry r 0 = 7 ∧ sp.trace.entry r 1 = 7) ∧
    (Stwo.prove_equality 7 7 =
        .ok ⟨0, ⟨Stwo.column_fill (2 ^ 5) 7, Stwo.column_fill (2 ^ 5) 7⟩, 7, 7⟩ ∧
      ∀ x ∈ (Stwo.StarkProof.mk (Stwo.column_fill (2 ^ 5) 7)
          (Stwo.column_fill (2 ^ 5) 7)).col_a, x = 7) :=
  ⟨⟨rfl, (c10_trace_shape 7 7).1 _ rfl⟩,
    ⟨rfl, fun x hx => ((c10_trace_shape 7 7).2 _ rfl).2.2.1 x hx⟩⟩

end Atomica

namespace Atomica

/-- **C4.** Layer-2 verification is layer-local: `SnarkVerifier::verify` reads
only the outer SNARK proof bytes, the public inputs and the verifying key, so
two `WrappedProof` values that differ only in `inner_stark_proof` verify
identically (same run log, same outcome), and no Layer-1 verification step
(the plaintext check, inner deserialization, AIR construction or the STARK
constraint check) ever appears on the verification path. -/
theorem c4_layer_local (vk : P3.IndexVerifierKey) (rngSeed : Nat)
    (p1 p2 : P3.WrappedProof)
    (houter : p1.outer_snark_proof = p2.outer_snark_proof)
    (hpub : p1.public_inputs = p2.public_inputs) :
    P3.snark_verify_run vk rngSeed p1 = P3.snark_verify_run vk rngSeed p2 ∧
    ∀ s ∈ (P3.snark_verify_run vk rngSeed p1).1,
      s ≠ P3.Step.plaintextEqCheck ∧ s ≠ P3.Step.heightCheck ∧
        s ≠ P3.Step.airConstruct ∧ s ≠ P3.Step.deserializeInner ∧
        s ≠ P3.Step.starkVerify := by
  constructor
  · unfold P3.snark_verify_run
    rw [houter, hpub]
  · intro s hs
    rcases P3.snark_verify_steps_sub vk rngSeed p1 s hs with h | h | h | h
    all_goals subst h
    all_goals exact ⟨by decide, by decide, by decide, by decide, by decide⟩

/-- Witness for C4: two wrapped proofs with distinct inner STARK proofs but
the same outer proof and public inputs. -/
theorem c4_witness :
    (P3.WrappedProof.mk ⟨[], 1, 2, 3⟩ ⟨0, [42], true, 0⟩
        [[4, 2]]).outer_snark_proof =
      (P3.WrappedProof.mk ⟨[9, 9], 7, 7, 32⟩ ⟨0, [42], true, 0⟩
        [[4, 2]]).outer_snark_proof ∧
    (P3.WrappedProof.mk ⟨[], 1, 2, 3⟩ ⟨0, [42], true, 0⟩
        [[4, 2]]).public_inputs =
      (P3.WrappedProof.mk ⟨[9, 9], 7, 7, 32⟩ ⟨0, [42], true, 0⟩
        [[4, 2]]).public_inputs ∧
    (P3.snark_verify_run ⟨0⟩ 0 (P3.WrappedProof.mk ⟨[], 1, 2, 3⟩
          ⟨0, [42], true, 0⟩ [[4, 2]]) =
        P3.snark_verify_run ⟨0⟩ 0 (P3.WrappedProof.mk ⟨[9, 9], 7, 7, 32⟩
          ⟨0, [42], true, 0⟩ [[4, 2]]) ∧
      ∀ s ∈ (P3.snark_verify_run ⟨0⟩ 0 (P3.WrappedProof.mk ⟨[], 1, 2, 3⟩
          ⟨0, [42], true, 0⟩ [[4, 2]])).1,
        s ≠ P3.Step.plaintextEqCheck ∧ s ≠ P3.Step.heightCheck ∧
          s ≠ P3.Step.airConstruct ∧ s ≠ P3.Step.deserializeInner ∧
          s ≠ P3.Step.starkVerify) :=
  ⟨rfl, rfl, c4_layer_local ⟨0⟩ 0 _ _ rfl rfl⟩

/-- **C3.** `SnarkWrapper::wrap` first runs the Layer-1 native STARK verifier
on the inner proof; when that verification fails, `wrap` returns the
propagated failure as an inner-proof-invalid error and its run log contains
no Layer-2 step (no proof hashing, circuit synthesis, randomness draw, Marlin
proving or outer serialization); and `wrap` never returns a `WrappedProof`
unless the native verification of the inner proof succeeded. -/
theorem c3_wrap_guards (pk : P3.IndexProverKey) (rngSeed : Nat)
    (inner : P3.NativeStarkProof) :
    (∀ e, P3.native_verify inner.num_rows inner = .error e →
      P3.wrap pk rngSeed inner = .error (P3.WrapError.innerProofInvalid e) ∧
      ∀ s ∈ (P3.wrap_run pk rngSeed inner).1,
        s ≠ P3.Step.hashProof ∧ s ≠ P3.Step.synthCircuit ∧
          s ≠ P3.Step.sampleRng ∧ s ≠ P3.Step.snarkProve ∧
          s ≠ P3.Step.serializeOuter) ∧
    ∀ w, P3.wrap pk rngSeed inner = .ok w →
      P3.native_verify inner.num_rows inner = .ok () := by
  constructor
  · intro e he
    unfold P3.native_verify at he
    rcases hx : P3.native_verify_run inner.num_rows inner with ⟨l1, res⟩
    rw [hx] at he
    simp only at he
    subst he
    constructor
    · unfold P3.wrap P3.wrap_run
      rw [hx]
    · intro s hs
      unfold P3.wrap_run at hs
      rw [hx] at hs
      simp only at hs
      have hmem : s ∈ (P3.native_verify_run inner.num_rows inner).1 := by
        rw [hx]; exact hs
      rcases P3.native_verify_steps_sub inner.num_rows inner s hmem with
        h | h | h | h | h
      all_goals subst h
      all_goals exact ⟨by decide, by decide, by decide, by decide, by decide⟩
  · intro w hw
    unfold P3.wrap P3.wrap_run at hw
    unfold P3.native_verify
    rcases hx : P3.native_verify_run inner.num_rows inner with ⟨l1, res⟩
    rw [hx] at hw
    cases res with
    | error e => simp at hw
    | ok u => cases u; rfl

set_option maxRecDepth 16384 in
/-- Witness for C3: an inner proof with unequal tagged values is rejected by
the Layer-1 check and `wrap` propagates the error with a Layer-1-only run
log; a well-formed inner proof for the claim `(42, 42)` wraps successfully
only after its native verification succeeded. -/
theorem c3_witness :
    (P3.native_verify (P3.NativeStarkProof.mk [] 42 43 32).num_rows
        ⟨[], 42, 43, 32⟩ = .error P3.VError.proofValuesUnequal ∧
      (P3.wrap ⟨0⟩ 7 ⟨[], 42, 43, 32⟩ =
          .error (P3.WrapError.innerProofInvalid P3.VError.proofValuesUnequal) ∧
        ∀ s ∈ (P3.wrap_run ⟨0⟩ 7 ⟨[], 42, 43, 32⟩).1,
          s ≠ P3.Step.hashProof ∧ s ≠ P3.Step.synthCircuit ∧
            s ≠ P3.Step.sampleRng ∧ s ≠ P3.Step.snarkProve ∧
            s ≠ P3.Step.serializeOuter)) ∧
    (P3.wrap ⟨0⟩ 7 (P3.prove_equality_model 42) =
        .ok ⟨P3.prove_equality_model 42, ⟨0, [42], true, 7⟩,
          [P3.nat_to_decimal 42]⟩ ∧
      P3.native_verify (P3.prove_equality_model 42).num_rows
        (P3.prove_equality_model 42) = .ok ()) :=
  ⟨⟨rfl, (c3_wrap_guards ⟨0⟩ 7 ⟨[], 42, 43, 32⟩).1
      P3.VError.proofValuesUnequal rfl⟩,
    ⟨rfl, (c3_wrap_guards ⟨0⟩ 7 (P3.prove_equality_model 42)).2 _ rfl⟩⟩

end Atomica

namespace Atomica.Plonk

theorem verify_equality_run_ok (p : EqualityProof)
    (h : (verify_equality_run p).2 = .ok true) :
    p.a = p.b ∧ ∃ sp, bincode_deserialize p.proof_bytes = some sp ∧
      p3_verify sp = true ∧
      verify_equality_run p =
        ([Step.plaintextEqCheck, Step.deserializeProof, Step.starkVerify],
          .ok true) := by
  unfold verify_equality_run at h
  split at h
  · simp at h
  · rename_i hab
    split at h
    · simp at h
    · rename_i sp hd
      split at h
      · rename_i hv
        refine ⟨not_not.mp hab, sp, hd, hv, ?_⟩
        unfold verify_equality_run
        rw [if_neg hab, hd]
        simp [hv]
      · simp at h

end Atomica.Plonk

namespace Atomica.P3

theorem native_verify_run_ok (n : Nat) (p : NativeStarkProof)
    (h : (native_verify_run n p).2 = .ok ()) :
    p.a = p.b ∧ p.num_rows = n ∧
      ∃ sp ea, new_checked p.a = some ea ∧
        bincode_deserialize p.proof_bytes = some sp ∧
        p3_verify_expected ea ea sp = true ∧
        native_verify_run n p =
          ([Step.plaintextEqCheck, Step.heightCheck, Step.airConstruct,
            Step.deserializeInner, Step.starkVerify], .ok ()) := by
  unfold native_verify_run at h
  split at h
  · simp at h
  · rename_i hab
    split at h
    · simp at h
    · rename_i hnr
      split at h
      · rename_i ea eb hca hcb
        split at h
        · simp at h
        · rename_i sp hd
          have hee : ea = eb := by
            obtain ⟨h1, _⟩ := new_checked_some hca
            obtain ⟨h2, _⟩ := new_checked_some hcb
            have := not_not.mp hab
            omega
          subst hee
          split at h
          · rename_i hv
            refine ⟨not_not.mp hab, not_not.mp hnr, sp, ea, hca, hd, hv, ?_⟩
            unfold native_verify_run
            rw [if_neg hab, if_neg hnr, hca, hcb, hd]
            simp [hv]
          · simp at h
      · simp at h

end Atomica.P3

namespace Atomica

/-- **C8 counterexample.** The verification path of `SnarkVerifier::verify`
does consume randomness: the source draws `ark_std::rand::thread_rng()` and
passes it to the Marlin pairing check, so the run log of a concrete
verification call contains the randomness-drawing step. -/
theorem c8_counterexample :
    P3.Step.sampleRng ∈
      (P3.snark_verify_run ⟨0⟩ 0
        ⟨⟨[], 0, 0, 0⟩, ⟨0, [42], true, 0⟩, [[4, 2]]⟩).1 := by decide

/-- **C8 (amended).** `NativeStarkVerifier::verify` consumes no randomness
(its run log never contains a randomness draw), and while
`SnarkVerifier::verify` does draw system randomness for the Marlin pairing
check, the verification outcome for a fixed proof and fixed keys is the same
whatever value is drawn. -/
theorem c8_amended (n : Nat) (p : P3.NativeStarkProof) (vk : P3.IndexVerifierKey)
    (s1 s2 : Nat) (wp : P3.WrappedProof) :
    P3.Step.sampleRng ∉ (P3.native_verify_run n p).1 ∧
    P3.snark_verify vk s1 wp = P3.snark_verify vk s2 wp := by
  constructor
  · intro hmem
    rcases P3.native_verify_steps_sub n p _ hmem with h | h | h | h | h
    all_goals exact absurd h (by decide)
  · unfold P3.snark_verify P3.snark_verify_run P3.marlin_verify
    rcases wp.public_inputs.mapM P3.parse_u32 with _ | pubs
    all_goals rfl

/-- **C9 counterexample.** The stwo host's `generate_trace` performs no range
check: for the out-of-range value `2^31 - 1` (the Mersenne31 modulus itself,
a valid `u32`) trace construction succeeds and embeds the raw value rather
than rejecting it. -/
theorem c9_counterexample :
    M31P ≤ M31P ∧
    (Stwo.generate_trace 5 M31P M31P).isOk = true ∧
    ((Stwo.generate_trace 5 M31P M31P).toOption.map fun cols =>
        cols.1.getD 0 0) = some M31P := by decide

/-- **C9 (amended).** The plonk host's `generate_trace` rejects (panics on)
any value at or above the Mersenne31 modulus at trace-construction time and
embeds in-range values unchanged; the stwo host's `generate_trace` performs
no range check and embeds the raw `u32` unchanged, silently accepting
out-of-range values. -/
theorem c9_amended (v n : Nat) (hv : M31P ≤ v) (w : Nat) (hw : w < M31P) :
    Plonk.generate_trace n v v = .error Plonk.RustError.panicked ∧
    Plonk.generate_trace n w w = .ok ⟨Plonk.traceValues n w w, 2⟩ ∧
    Stwo.generate_trace 5 v v =
      .ok (Stwo.column_fill (2 ^ 5) v, Stwo.column_fill (2 ^ 5) v) ∧
    ∀ x ∈ Stwo.column_fill (2 ^ 5) v, x = v := by
  have hnv : new_checked v = none := by
    unfold new_checked
    rw [if_neg (by omega)]
  have hnw : new_checked w = some w := by
    unfold new_checked
    rw [if_pos hw]
  refine ⟨?_, ?_, ?_, Stwo.column_fill_all 5 v (by decide)⟩
  · unfold Plonk.generate_trace
    rw [hnv]
  · unfold Plonk.generate_trace
    rw [hnw]
  · unfold Stwo.generate_trace
    rw [if_neg (by simp [Stwo.LOG_N_LANES])]
    rfl

/-- Witness for C9 at the out-of-range value `2^31 - 1` and the in-range
value `100`. -/
theorem c9_witness :
    (M31P ≤ M31P ∧ 100 < M31P) ∧
    (Plonk.generate_trace 32 M31P M31P = .error Plonk.RustError.panicked ∧
      Plonk.generate_trace 32 100 100 = .ok ⟨Plonk.traceValues 32 100 100, 2⟩ ∧
      Stwo.generate_trace 5 M31P M31P =
        .ok (Stwo.column_fill (2 ^ 5) M31P, Stwo.column_fill (2 ^ 5) M31P) ∧
      ∀ x ∈ Stwo.column_fill (2 ^ 5) M31P, x = M31P) :=
  ⟨⟨Nat.le_refl _, by decide⟩, c9_amended M31P 32 (Nat.le_refl _) 100 (by decide)⟩

end Atomica

namespace Atomica

/-- **C6 counterexample.** Layer-1 verification does re-derive `a == b` from
the proof's tagged claim values: on a proof whose bytes encode a valid trace
but whose tags read `(42, 43)`, both the plonk host's `verify_equality` and
the plonky3 `NativeStarkVerifier::verify` reject through the plaintext
comparison alone — the run log contains only the plaintext check and the
encoded AIR constraint check is never reached. -/
theorem c6_counterexample :
    Plonk.verify_equality_run
        ⟨bincode_serialize ⟨⟨Plonk.traceValues 32 42 42, 2⟩⟩, 42, 43⟩ =
      ([Plonk.Step.plaintextEqCheck], .error Plonk.RustError.proofValuesUnequal) ∧
    P3.native_verify_run 32
        ⟨bincode_serialize ⟨⟨Plonk.traceValues 32 42 42, 2⟩⟩, 42, 43, 32⟩ =
      ([P3.Step.plaintextEqCheck], .error P3.VError.proofValuesUnequal) ∧
    Plonk.Step.starkVerify ∉ [Plonk.Step.plaintextEqCheck] ∧
    P3.Step.starkVerify ∉ [P3.Step.plaintextEqCheck] :=
  ⟨rfl, rfl, by decide, by decide⟩

/-- **C6 (amended).** Layer-1 verification performs a plaintext fail-fast
comparison of the proof's tagged `a` and `b` (rejecting unequal tags before
any constraint check), but a proof is never *accepted* on the plaintext
comparison alone: every accepted proof has equal tags, deserializes, and
passes the encoded AIR constraint check, whose step appears in the run log. -/
theorem c6_amended :
    (∀ p : Plonk.EqualityProof, Plonk.verify_equality p = .ok true →
      ∃ sp, bincode_deserialize p.proof_bytes = some sp ∧
        Plonk.p3_verify sp = true ∧
        Plonk.Step.starkVerify ∈ (Plonk.verify_equality_run p).1) ∧
    ∀ (n : Nat) (p : P3.NativeStarkProof), P3.native_verify n p = .ok () →
      p.a = p.b ∧
      ∃ sp ea, bincode_deserialize p.proof_bytes = some sp ∧
        new_checked p.a = some ea ∧
        P3.p3_verify_expected ea ea sp = true ∧
        P3.Step.starkVerify ∈ (P3.native_verify_run n p).1 := by
  constructor
  · intro p hp
    obtain ⟨hab, sp, hd, hv, hrun⟩ := Plonk.verify_equality_run_ok p hp
    refine ⟨sp, hd, hv, ?_⟩
    rw [hrun]
    simp
  · intro n p hp
    obtain ⟨hab, hnr, sp, ea, hca, hd, hv, hrun⟩ := P3.native_verify_run_ok n p hp
    refine ⟨hab, sp, ea, hd, hca, hv, ?_⟩
    rw [hrun]
    simp

set_option maxRecDepth 16384 in
/-- Witness for C6 (amended) at two concrete accepted proofs for the claim
`(42, 42)`. -/
theorem c6_witness :
    (∃ sp, bincode_deserialize (Plonk.EqualityProof.mk
          (bincode_serialize ⟨⟨Plonk.traceValues 32 42 42, 2⟩⟩) 42 42).proof_bytes =
        some sp ∧
      Plonk.p3_verify sp = true ∧
      Plonk.Step.starkVerify ∈ (Plonk.verify_equality_run
        ⟨bincode_serialize ⟨⟨Plonk.traceValues 32 42 42, 2⟩⟩, 42, 42⟩).1) ∧
    ((P3.prove_equality_model 42).a = (P3.prove_equality_model 42).b ∧
      ∃ sp ea, bincode_deserialize (P3.prove_equality_model 42).proof_bytes =
          some sp ∧
        new_checked (P3.prove_equality_model 42).a = some ea ∧
        P3.p3_verify_expected ea ea sp = true ∧
        P3.Step.starkVerify ∈ (P3.native_verify_run 32
          (P3.prove_equality_model 42)).1) :=
  ⟨c6_amended.1 ⟨bincode_serialize ⟨⟨Plonk.traceValues 32 42 42, 2⟩⟩, 42, 42⟩ rfl,
    c6_amended.2 32 (P3.prove_equality_model 42) rfl⟩

/-- **C1 counterexample.** `2^31 - 1` is a valid `u32`, yet the plonk host's
`prove_equality(2^31 - 1, 2^31 - 1)` does not return a proof object: the
checked field conversion in `generate_trace` panics because the value is
outside the canonical Mersenne31 range. -/
theorem c1_counterexample :
    2147483647 < 2 ^ 32 ∧ M31P = 2147483647 ∧
    Plonk.prove_equality 2147483647 2147483647 =
      .error Plonk.RustError.panicked :=
  ⟨by decide, by decide, rfl⟩

/-- **C1 (amended).** For every pair `(a, b)` with `a == b` and the value in
the canonical Mersenne31 range (`a < 2^31 - 1`), `prove_equality(a, b)`
returns a proof object in both the plonk and stwo hosts, and verifying that
proof with the matching `verify_equality` reports it valid. -/
theorem c1_equal_pair_roundtrip (a : Nat) (h : a < M31P) :
    (∃ p, Plonk.prove_equality a a = .ok p ∧
      Plonk.verify_equality p = .ok true) ∧
    ∃ q, Stwo.prove_equality a a = .ok q ∧
      Stwo.verify_equality q = .ok true := by
  have hc : new_checked a = some a := by
    unfold new_checked
    rw [if_pos h]
  constructor
  · refine ⟨⟨bincode_serialize ⟨⟨Plonk.traceValues 32 a a, 2⟩⟩, a, a⟩, ?_, ?_⟩
    · unfold Plonk.prove_equality Plonk.prove_equality_run Plonk.generate_trace
      rw [if_neg (fun hne : a ≠ a => hne rfl), hc]
      rfl
    · have hv : Plonk.p3_verify ⟨⟨Plonk.traceValues 32 a a, 2⟩⟩ = true :=
        Plonk.p3_verify_trace 32 a
      unfold Plonk.verify_equality Plonk.verify_equality_run
      rw [if_neg (fun hne : a ≠ a => hne rfl), bincode_roundtrip]
      simp [hv]
  · refine ⟨⟨0, ⟨Stwo.column_fill (2 ^ 5) a, Stwo.column_fill (2 ^ 5) a⟩, a, a⟩,
      ?_, ?_⟩
    · unfold Stwo.prove_equality Stwo.prove_equality_run Stwo.generate_trace
      rw [if_neg (fun hne : a ≠ a => hne rfl),
        if_neg (by simp [Stwo.LOG_N_LANES])]
      rfl
    · have hv : Stwo.stwo_constraints_ok
          ⟨Stwo.column_fill (2 ^ 5) a, Stwo.column_fill (2 ^ 5) a⟩ = true :=
        Stwo.stwo_constraints_ok_fill a
      unfold Stwo.verify_equality Stwo.verify_equality_run
      rw [if_pos hv]

/-- Witness for C1 (amended) at the spec's concrete scenario `(100, 100)`. -/
theorem c1_witness :
    100 < M31P ∧
    ((∃ p, Plonk.prove_equality 100 100 = .ok p ∧
        Plonk.verify_equality p = .ok true) ∧
      ∃ q, Stwo.prove_equality 100 100 = .ok q ∧
        Stwo.verify_equality q = .ok true) :=
  ⟨by decide, c1_equal_pair_roundtrip 100 (by decide)⟩

end Atomica

namespace Atomica

/-- **C7 counterexample.** In the plonk host, nothing binds the tagged claim
values to the proof bytes (the AIR carries no expected values and the public
value list is empty): a proof honestly generated for the claim `(42, 42)`
still verifies as `ok true` after its tags are replaced by the distinct claim
`(99, 99)` — verification silently succeeds instead of failing. -/
theorem c7_counterexample :
    Plonk.prove_equality 42 42 =
      .ok ⟨bincode_serialize ⟨⟨Plonk.traceValues 32 42 42, 2⟩⟩, 42, 42⟩ ∧
    Plonk.verify_equality
        ⟨bincode_serialize ⟨⟨Plonk.traceValues 32 42 42, 2⟩⟩, 42, 42⟩ =
      .ok true ∧
    Plonk.verify_equality
        ⟨bincode_serialize ⟨⟨Plonk.traceValues 32 42 42, 2⟩⟩, 99, 99⟩ =
      .ok true :=
  ⟨rfl, rfl, rfl⟩

/-- **C7 (amended).** Against the plonky3 `NativeStarkVerifier`, whose
(spec-modelled) AIR binds the expected claim values, a proof generated for
the claim `(a, a)` fails with the `ConstraintViolation` error after its tags
are substituted by a distinct claim `(a', a')`; in the plonk host the tags
are not bound to the proof, so the same substitution silently verifies. -/
theorem c7_substituted_claim (a a' : Nat) (_ha : a < M31P) (ha' : a' < M31P)
    (hne : a ≠ a') :
    P3.native_verify 32
        ⟨bincode_serialize ⟨⟨Plonk.traceValues 32 a a, 2⟩⟩, a', a', 32⟩ =
      .error P3.VError.constraintViolation ∧
    Plonk.verify_equality
        ⟨bincode_serialize ⟨⟨Plonk.traceValues 32 a a, 2⟩⟩, a', a'⟩ =
      .ok true := by
  have hca' : new_checked a' = some a' := by
    unfold new_checked
    rw [if_pos ha']
  have hentry0 : (RowMajorMatrix.mk (Plonk.traceValues 32 a a) 2).entry 0 0 = a := by
    simpa [RowMajorMatrix.entry] using Plonk.traceValues_getD_even 32 a a 0 (by omega)
  have hfalse : P3.p3_verify_expected a' a'
      ⟨⟨Plonk.traceValues 32 a a, 2⟩⟩ = false := by
    rw [Bool.eq_false_iff]
    intro htrue
    unfold P3.p3_verify_expected P3.eq_air_expected_ok at htrue
    simp only [Bool.and_eq_true, beq_iff_eq, List.all_eq_true, List.mem_range]
      at htrue
    have h32 : (RowMajorMatrix.mk (Plonk.traceValues 32 a a) 2).height = 32 := by
      simp [RowMajorMatrix.height, Plonk.traceValues_length]
    have h0 := htrue.2 0 (by rw [h32]; omega)
    exact hne (hentry0 ▸ h0.1.2)
  constructor
  · unfold P3.native_verify P3.native_verify_run
    rw [if_neg (fun hx : a' ≠ a' => hx rfl),
      if_neg (fun hx : (32 : Nat) ≠ 32 => hx rfl), hca', bincode_roundtrip]
    simp [hfalse]
  · have hv : Plonk.p3_verify ⟨⟨Plonk.traceValues 32 a a, 2⟩⟩ = true :=
      Plonk.p3_verify_trace 32 a
    unfold Plonk.verify_equality Plonk.verify_equality_run
    rw [if_neg (fun hx : a' ≠ a' => hx rfl), bincode_roundtrip]
    simp [hv]

/-- Witness for C7 (amended) at the spec's concrete substitution of `99` for
`42`. -/
theorem c7_witness :
    (42 < M31P ∧ 99 < M31P ∧ 42 ≠ 99) ∧
    (P3.native_verify 32
        ⟨bincode_serialize ⟨⟨Plonk.traceValues 32 42 42, 2⟩⟩, 99, 99, 32⟩ =
      .error P3.VError.constraintViolation ∧
    Plonk.verify_equality
        ⟨bincode_serialize ⟨⟨Plonk.traceValues 32 42 42, 2⟩⟩, 99, 99⟩ =
      .ok true) :=
  ⟨⟨by decide, by decide, by decide⟩,
    c7_substituted_claim 42 99 (by decide) (by decide) (by decide)⟩

end Atomica
